import Mathlib

/-!
Shallow embedding of the satellite imaging estimation pipeline
(`pierwszykrokmilowy.py` and `drugikrokmilowy.py`).

Python floats are modelled as real numbers; `int(...)` truncation toward
zero is `pyInt`; `np.ceil` followed by `int(...)` is `Int.ceil`; Python
dictionaries returned by the estimator functions are Lean structures with
the same field names.
-/

namespace ProjGrupowyWizja

open Real

/-- Constant `EARTH_RADIUS = 6371000` (metres). -/
def EARTH_RADIUS : ℝ := 6371000

/-- Constant `EARTH_SURFACE_AREA = 4 * pi * EARTH_RADIUS**2`. -/
noncomputable def EARTH_SURFACE_AREA : ℝ := 4 * π * EARTH_RADIUS ^ 2

/-- Constant `EARTH_CIRCUMFERENCE = 2 * pi * EARTH_RADIUS`. -/
noncomputable def EARTH_CIRCUMFERENCE : ℝ := 2 * π * EARTH_RADIUS

/-- Python `int(x)` on a float: truncation toward zero. -/
noncomputable def pyInt (x : ℝ) : ℤ := if 0 ≤ x then ⌊x⌋ else ⌈x⌉

/-- Python `math.radians(d) = d * pi / 180`. -/
noncomputable def pyRadians (d : ℝ) : ℝ := d * π / 180

/-- Embeds `calculate_image_size(resolution, image_width_px, image_height_px,
num_channels)`: returns `(total_pixels, image_size_mb)` with 2 bytes per pixel
per channel. The `resolution` argument is accepted but unused, as in the source. -/
noncomputable def calculate_image_size (resolution : ℝ)
    (image_width_px image_height_px num_channels : ℤ) : ℤ × ℝ :=
  let total_pixels := image_width_px * image_height_px
  let image_size_bytes := total_pixels * num_channels * 2
  (total_pixels, (image_size_bytes : ℝ) / (1024 * 1024))

/-- Result record of `calculate_ground_coverage`. -/
structure GroundCoverage where
  swath_width : ℝ
  swath_height : ℝ
  width_px : ℤ
  height_px : ℤ

/-- Embeds `calculate_ground_coverage(altitude, fov_degrees, sensor_width_mm,
sensor_height_mm, pixel_size_um)`. -/
noncomputable def calculate_ground_coverage
    (altitude fov_degrees sensor_width_mm sensor_height_mm pixel_size_um : ℝ) :
    GroundCoverage :=
  let fov_rad := pyRadians fov_degrees
  let swath_width := 2 * altitude * Real.tan (fov_rad / 2)
  let swath_height := swath_width / (sensor_width_mm / sensor_height_mm)
  let width_px := pyInt (sensor_width_mm * 1000 / pixel_size_um)
  let height_px := pyInt (sensor_height_mm * 1000 / pixel_size_um)
  ⟨swath_width, swath_height, width_px, height_px⟩

/-- The local `effective_width = swath_width * (1 - overlap_percent/100)` common to
`calculate_number_of_images` and `calculate_imaging_intervals`. -/
noncomputable def effectiveWidth (swath_width overlap_percent : ℝ) : ℝ :=
  swath_width * (1 - overlap_percent / 100)

/-- The local `effective_height = swath_height * (1 - overlap_percent/100)` common to
`calculate_number_of_images` and `calculate_imaging_intervals`. -/
noncomputable def effectiveHeight (swath_height overlap_percent : ℝ) : ℝ :=
  swath_height * (1 - overlap_percent / 100)

/-- The local `effective_area = effective_width * effective_height` of
`calculate_number_of_images`. -/
noncomputable def effectiveArea (swath_width swath_height overlap_percent : ℝ) : ℝ :=
  effectiveWidth swath_width overlap_percent * effectiveHeight swath_height overlap_percent

/-- The local `num_images = (EARTH_SURFACE_AREA / effective_area) * correction_factor`
of `calculate_number_of_images`, before the final `int(np.ceil(...))`;
`correction_factor = 1.2`. -/
noncomputable def numImagesReal (swath_width swath_height overlap_percent : ℝ) : ℝ :=
  EARTH_SURFACE_AREA / effectiveArea swath_width swath_height overlap_percent * 1.2

/-- Embeds `calculate_number_of_images(resolution, swath_width, swath_height,
overlap_percent)`: `int(np.ceil(num_images))`. The `resolution` argument is unused,
as in the source. -/
noncomputable def calculate_number_of_images
    (resolution swath_width swath_height overlap_percent : ℝ) : ℤ :=
  ⌈numImagesReal swath_width swath_height overlap_percent⌉

/-- Result record of `calculate_sso_orbit_parameters`. -/
structure SSOParams where
  orbital_radius_km : ℝ
  orbital_period_minutes : ℝ
  orbits_per_day : ℝ
  repeat_cycle_days : ℝ
  longitude_separation_degrees : ℝ
  inclination_degrees : ℝ
  nodal_precession_deg_per_day : ℝ

/-- The local `orbital_period_seconds = 2*pi*sqrt(orbital_radius**3 / mu)` of
`calculate_sso_orbit_parameters`, with `mu = 3.986004418e14`. -/
noncomputable def ssoOrbitalPeriodSeconds (altitude : ℝ) : ℝ :=
  2 * π * Real.sqrt ((EARTH_RADIUS + altitude) ^ 3 / 3.986004418e14)

/-- Embeds `calculate_sso_orbit_parameters(altitude, inclination_degrees)`. -/
noncomputable def calculate_sso_orbit_parameters
    (altitude inclination_degrees : ℝ) : SSOParams :=
  let orbital_radius := EARTH_RADIUS + altitude
  let orbital_period_seconds := ssoOrbitalPeriodSeconds altitude
  let orbital_period_minutes := orbital_period_seconds / 60
  let orbits_per_day := 24 * 60 * 60 / orbital_period_seconds
  let repeat_cycle_days := (⌈orbits_per_day⌉ : ℝ)
  let longitude_separation_degrees := 360 / orbits_per_day
  ⟨orbital_radius / 1000, orbital_period_minutes, orbits_per_day,
    repeat_cycle_days, longitude_separation_degrees, inclination_degrees, 0.9856⟩

/-- Result record of `calculate_imaging_intervals`. -/
structure ImagingIntervals where
  satellite_velocity_km_h : ℝ
  ground_velocity_km_h : ℝ
  time_interval_seconds : ℝ
  distance_interval_along_track_km : ℝ
  distance_interval_cross_track_km : ℝ
  longitude_interval_degrees : ℝ
  num_strips_equator : ℝ
  num_orbits_for_coverage : ℝ
  time_for_full_coverage_hours : ℝ

/-- The local `satellite_velocity = orbital_circumference / orbital_period_seconds`
of `calculate_imaging_intervals`, where `orbital_circumference =
2*pi*(EARTH_RADIUS + altitude)` and `orbital_period_seconds =
orbital_period_minutes * 60`. -/
noncomputable def satelliteVelocity (altitude orbital_period_minutes : ℝ) : ℝ :=
  2 * π * (EARTH_RADIUS + altitude) / (orbital_period_minutes * 60)

/-- The local `ground_velocity = satellite_velocity * (EARTH_RADIUS / orbital_radius)`
of `calculate_imaging_intervals`. -/
noncomputable def groundVelocity (altitude orbital_period_minutes : ℝ) : ℝ :=
  satelliteVelocity altitude orbital_period_minutes *
    (EARTH_RADIUS / (EARTH_RADIUS + altitude))

/-- The local `num_strips_equator = np.ceil(EARTH_CIRCUMFERENCE / effective_width)`
of `calculate_imaging_intervals` (a float in the source, hence real-valued here). -/
noncomputable def numStripsEquator (swath_width overlap_percent : ℝ) : ℝ :=
  (⌈EARTH_CIRCUMFERENCE / effectiveWidth swath_width overlap_percent⌉ : ℝ)

/-- Embeds `calculate_imaging_intervals(altitude, swath_width, swath_height,
overlap_percent, orbital_period_minutes)`. -/
noncomputable def calculate_imaging_intervals
    (altitude swath_width swath_height overlap_percent orbital_period_minutes : ℝ) :
    ImagingIntervals :=
  let effective_height := effectiveHeight swath_height overlap_percent
  let satellite_velocity := satelliteVelocity altitude orbital_period_minutes
  let ground_velocity := groundVelocity altitude orbital_period_minutes
  let time_interval_seconds := effective_height / ground_velocity
  let distance_interval_along_track := effective_height
  let num_strips_equator := numStripsEquator swath_width overlap_percent
  let longitude_interval_degrees := 360 / num_strips_equator
  let distance_interval_cross_track := EARTH_CIRCUMFERENCE / num_strips_equator
  let num_orbits_for_coverage := num_strips_equator / 2
  let time_for_full_coverage_hours := num_orbits_for_coverage * orbital_period_minutes / 60
  ⟨satellite_velocity * 3.6, ground_velocity * 3.6, time_interval_seconds,
    distance_interval_along_track / 1000, distance_interval_cross_track / 1000,
    longitude_interval_degrees, num_strips_equator, num_orbits_for_coverage,
    time_for_full_coverage_hours⟩

/-- Embeds `calculate_total_data_volume(resolution, num_images, image_size_mb)`:
returns `(total_data_mb, total_data_gb, total_data_tb)`. The `resolution`
argument is unused, as in the source. -/
noncomputable def calculate_total_data_volume
    (resolution : ℝ) (num_images : ℤ) (image_size_mb : ℝ) : ℝ × ℝ × ℝ :=
  let total_data_mb := (num_images : ℝ) * image_size_mb
  let total_data_gb := total_data_mb / 1024
  let total_data_tb := total_data_gb / 1024
  (total_data_mb, total_data_gb, total_data_tb)

/-- Embeds `simulate_hybrid_acquisition_with_terrain_and_daylight` from
`drugikrokmilowy.py`. -/
noncomputable def simulate_hybrid_acquisition_with_terrain_and_daylight
    (high_res_data_gb low_res_data_gb urban_area_percent other_land_area_percent
      ocean_area_percent compression_ratio_high_res compression_ratio_low_res
      daylight_fraction : ℝ) : ℝ :=
  let compressed_urban_data :=
    high_res_data_gb * (urban_area_percent / 100) / compression_ratio_high_res
  let compressed_land_data :=
    low_res_data_gb * (other_land_area_percent / 100) / compression_ratio_low_res
  let compressed_ocean_data :=
    low_res_data_gb * (ocean_area_percent / 100) / (compression_ratio_low_res * 2)
  (compressed_urban_data + compressed_land_data + compressed_ocean_data) *
    daylight_fraction

/-- Embeds `check_transmission_limit(data_volume_gb, daily_limit_gb)` from
`drugikrokmilowy.py`: the boolean `data_volume_gb <= daily_limit_gb`. -/
noncomputable def check_transmission_limit (data_volume_gb daily_limit_gb : ℝ) : Bool :=
  decide (data_volume_gb ≤ daily_limit_gb)

/-- The keyword arguments of `analyze_resolution_scenario`, bundled. -/
structure ScenarioParams where
  satellite_model : String
  resolution : ℝ
  altitude : ℝ
  fov_degrees : ℝ
  sensor_width_mm : ℝ
  sensor_height_mm : ℝ
  pixel_size_um : ℝ
  num_channels : ℤ
  overlap_percent : ℝ
  orbital_period_minutes : ℝ
  inclination_degrees : Option ℝ
  ltan : Option String

/-- The result dictionary of `analyze_resolution_scenario`. -/
structure AnalysisResult where
  satellite_model : String
  resolution : ℝ
  altitude : ℝ
  fov_degrees : ℝ
  sensor_width_mm : ℝ
  sensor_height_mm : ℝ
  pixel_size_um : ℝ
  num_channels : ℤ
  orbital_period_minutes : ℝ
  swath_width_km : ℝ
  swath_height_km : ℝ
  image_width_px : ℤ
  image_height_px : ℤ
  total_pixels : ℤ
  image_size_mb : ℝ
  num_images : ℤ
  total_data_mb : ℝ
  total_data_gb : ℝ
  total_data_tb : ℝ
  imaging_intervals : ImagingIntervals
  sso_params : Option SSOParams
  inclination_degrees : Option ℝ
  ltan : Option String

/-- Embeds `analyze_resolution_scenario`: the full per-scenario pipeline
(ground coverage, image size, image count, optional SSO parameters with the
orbital-period override, imaging intervals, total data volume). -/
noncomputable def analyze_resolution_scenario (p : ScenarioParams) : AnalysisResult :=
  let gc := calculate_ground_coverage p.altitude p.fov_degrees
    p.sensor_width_mm p.sensor_height_mm p.pixel_size_um
  let size := calculate_image_size p.resolution gc.width_px gc.height_px p.num_channels
  let num_images := calculate_number_of_images p.resolution
    gc.swath_width gc.swath_height p.overlap_percent
  let sso_params := Option.map (calculate_sso_orbit_parameters p.altitude)
    p.inclination_degrees
  let orbital_period_minutes := match sso_params with
    | some s => s.orbital_period_minutes
    | none => p.orbital_period_minutes
  let imaging_intervals := calculate_imaging_intervals p.altitude
    gc.swath_width gc.swath_height p.overlap_percent orbital_period_minutes
  let tv := calculate_total_data_volume p.resolution num_images size.2
  ⟨p.satellite_model, p.resolution, p.altitude, p.fov_degrees,
    p.sensor_width_mm, p.sensor_height_mm, p.pixel_size_um, p.num_channels,
    orbital_period_minutes, gc.swath_width / 1000, gc.swath_height / 1000,
    gc.width_px, gc.height_px, size.1, size.2, num_images,
    tv.1, tv.2.1, tv.2.2, imaging_intervals, sso_params,
    p.inclination_degrees, p.ltan⟩

/-- A concrete scenario (the Sentinel-2 SSO scenario from `main`). -/
noncomputable def sampleScenario : ScenarioParams :=
  ⟨"Sentinel-2", 10, 700000, 10, 35, 23, 7, 13, 10, 90, some 98, some "10:30"⟩

/-- C3: `check_transmission_limit(data_volume_gb, daily_limit_gb)` returns `True`
if and only if `data_volume_gb <= daily_limit_gb`. -/
theorem check_transmission_limit_iff (data_volume_gb daily_limit_gb : ℝ) :
    check_transmission_limit data_volume_gb daily_limit_gb = true ↔
      data_volume_gb ≤ daily_limit_gb := by
  simp [check_transmission_limit]

/-- C9: the `resolution` parameter does not influence the outputs of
`calculate_image_size`, `calculate_number_of_images` and
`calculate_total_data_volume`; it never enters any formula. -/
theorem resolution_noninterference (r1 r2 : ℝ) (w h c : ℤ)
    (sw sh op : ℝ) (n : ℤ) (s : ℝ) :
    calculate_image_size r1 w h c = calculate_image_size r2 w h c ∧
    calculate_number_of_images r1 sw sh op = calculate_number_of_images r2 sw sh op ∧
    calculate_total_data_volume r1 n s = calculate_total_data_volume r2 n s :=
  ⟨rfl, rfl, rfl⟩

/-- C6: for every `num_images >= 0`, the total data volume is the image count
times the per-image size, the per-image size in MB is
`width * height * channels * 2 / 1024^2` (2 bytes per pixel per channel), and
the returned totals satisfy `total_data_gb * 1024 = total_data_mb` and
`total_data_tb * 1024 = total_data_gb`. -/
theorem total_data_volume_spec (r : ℝ) (n : ℤ) (s : ℝ) (w h c : ℤ) (hn : 0 ≤ n) :
    (calculate_total_data_volume r n s).1 = (n : ℝ) * s ∧
    (calculate_total_data_volume r n s).2.1 * 1024 = (calculate_total_data_volume r n s).1 ∧
    (calculate_total_data_volume r n s).2.2 * 1024 = (calculate_total_data_volume r n s).2.1 ∧
    (calculate_image_size r w h c).2 = ((w * h * c * 2 : ℤ) : ℝ) / 1024 ^ 2 := by
  refine ⟨rfl, ?_, ?_, ?_⟩
  · show (n : ℝ) * s / 1024 * 1024 = (n : ℝ) * s
    exact div_mul_cancel₀ _ (by norm_num)
  · show (n : ℝ) * s / 1024 / 1024 * 1024 = (n : ℝ) * s / 1024
    exact div_mul_cancel₀ _ (by norm_num)
  · show ((w * h * c * 2 : ℤ) : ℝ) / (1024 * 1024) = ((w * h * c * 2 : ℤ) : ℝ) / 1024 ^ 2
    norm_num

/-- C6 witness: instantiation at `num_images = 5`, image size 3 MB,
a 100 x 200 image with 4 channels. -/
theorem total_data_volume_spec_witness :
    (0 : ℤ) ≤ 5 ∧
      (calculate_total_data_volume 1 5 3).1 = ((5 : ℤ) : ℝ) * 3 :=
  ⟨by norm_num, (total_data_volume_spec 1 5 3 100 200 4 (by norm_num)).1⟩

/-- C8: `analyze_resolution_scenario` is deterministic: two calls with equal
parameter records return equal result records (the pipeline is a pure function
of its arguments, with no mutable state). -/
theorem analyze_resolution_scenario_deterministic (p q : ScenarioParams)
    (h : p = q) :
    analyze_resolution_scenario p = analyze_resolution_scenario q := by
  rw [h]

/-- C8 witness: instantiation at the concrete Sentinel-2 scenario. -/
theorem analyze_resolution_scenario_deterministic_witness :
    sampleScenario = sampleScenario ∧
      analyze_resolution_scenario sampleScenario = analyze_resolution_scenario sampleScenario :=
  ⟨rfl, analyze_resolution_scenario_deterministic sampleScenario sampleScenario rfl⟩

/-- C2: for positive swath dimensions and `0 <= overlap_percent < 100`, the image
count times the effective per-image area covers `EARTH_SURFACE_AREA = 4*pi*R^2`
(the 1.2 correction factor and the ceiling only increase the count). -/
theorem number_of_images_covers_earth (r sw sh op : ℝ)
    (hsw : 0 < sw) (hsh : 0 < sh) (hop0 : 0 ≤ op) (hop1 : op < 100) :
    EARTH_SURFACE_AREA = 4 * π * EARTH_RADIUS ^ 2 ∧
    EARTH_SURFACE_AREA ≤ (calculate_number_of_images r sw sh op : ℝ) *
      (sw * (1 - op / 100) * (sh * (1 - op / 100))) := by
  have hf : (0 : ℝ) < 1 - op / 100 := by linarith
  have hA : 0 < sw * (1 - op / 100) * (sh * (1 - op / 100)) := by positivity
  have hS : 0 < EARTH_SURFACE_AREA := by
    unfold EARTH_SURFACE_AREA EARTH_RADIUS
    positivity
  refine ⟨rfl, ?_⟩
  have hceil : numImagesReal sw sh op ≤ (calculate_number_of_images r sw sh op : ℝ) :=
    Int.le_ceil _
  have hAne : sw * (1 - op / 100) * (sh * (1 - op / 100)) ≠ 0 := ne_of_gt hA
  have key : numImagesReal sw sh op * (sw * (1 - op / 100) * (sh * (1 - op / 100)))
      = 1.2 * EARTH_SURFACE_AREA := by
    show EARTH_SURFACE_AREA / (sw * (1 - op / 100) * (sh * (1 - op / 100))) * 1.2 *
        (sw * (1 - op / 100) * (sh * (1 - op / 100))) = 1.2 * EARTH_SURFACE_AREA
    rw [mul_right_comm, div_mul_cancel₀ _ hAne, mul_comm]
  calc EARTH_SURFACE_AREA ≤ 1.2 * EARTH_SURFACE_AREA := by linarith
    _ = numImagesReal sw sh op * (sw * (1 - op / 100) * (sh * (1 - op / 100))) := key.symm
    _ ≤ (calculate_number_of_images r sw sh op : ℝ) *
        (sw * (1 - op / 100) * (sh * (1 - op / 100))) :=
      mul_le_mul_of_nonneg_right hceil hA.le

/-- C2 witness: instantiation at resolution 1, unit swath, zero overlap. -/
theorem number_of_images_covers_earth_witness :
    (0 : ℝ) < 1 ∧
      EARTH_SURFACE_AREA ≤ (calculate_number_of_images 1 1 1 0 : ℝ) *
        (1 * (1 - 0 / 100) * (1 * (1 - 0 / 100))) :=
  ⟨by norm_num,
    (number_of_images_covers_earth 1 1 1 0 (by norm_num) (by norm_num)
      (by norm_num) (by norm_num)).2⟩

/-- C4: `calculate_ground_coverage` returns `swath_width =
2*altitude*tan(radians(fov)/2)`, `swath_height = swath_width *
sensor_height_mm / sensor_width_mm`, and pixel dimensions that are the
truncation toward zero of `sensor_*_mm*1000/pixel_size_um`. -/
theorem ground_coverage_spec (altitude fov sw sh ps : ℝ)
    (ha : 0 < altitude) (hf0 : 0 < fov) (hf1 : fov < 180)
    (hsw : 0 < sw) (hsh : 0 < sh) (hps : 0 < ps) :
    (calculate_ground_coverage altitude fov sw sh ps).swath_width
        = 2 * altitude * Real.tan (pyRadians fov / 2) ∧
    (calculate_ground_coverage altitude fov sw sh ps).swath_height
        = (calculate_ground_coverage altitude fov sw sh ps).swath_width * sh / sw ∧
    (calculate_ground_coverage altitude fov sw sh ps).width_px = pyInt (sw * 1000 / ps) ∧
    (calculate_ground_coverage altitude fov sw sh ps).height_px = pyInt (sh * 1000 / ps) := by
  have h1 : (calculate_ground_coverage altitude fov sw sh ps).swath_width
      = 2 * altitude * Real.tan (pyRadians fov / 2) := rfl
  have h2 : (calculate_ground_coverage altitude fov sw sh ps).swath_height
      = 2 * altitude * Real.tan (pyRadians fov / 2) / (sw / sh) := rfl
  refine ⟨h1, ?_, rfl, rfl⟩
  rw [h1, h2, div_div_eq_mul_div]

/-- C4 witness: instantiation at altitude 1 m, 90 degree field of view,
a 2 x 1 mm sensor with 1000 um pixels. -/
theorem ground_coverage_spec_witness :
    (0 : ℝ) < 1 ∧
      (calculate_ground_coverage 1 90 2 1 1000).swath_width
        = 2 * 1 * Real.tan (pyRadians 90 / 2) :=
  ⟨by norm_num,
    (ground_coverage_spec 1 90 2 1 1000 (by norm_num) (by norm_num) (by norm_num)
      (by norm_num) (by norm_num) (by norm_num)).1⟩

/-- C5: for `altitude > 0`, the SSO orbital period in seconds is
`2*pi*sqrt((EARTH_RADIUS+altitude)^3 / 3.986004418e14)`, and the outputs
satisfy `orbits_per_day * orbital_period_seconds = 86400` and
`longitude_separation_degrees * orbits_per_day = 360`. -/
theorem sso_orbit_parameters_spec (altitude inc : ℝ) (ha : 0 < altitude) :
    (calculate_sso_orbit_parameters altitude inc).orbital_period_minutes * 60
        = 2 * π * Real.sqrt ((EARTH_RADIUS + altitude) ^ 3 / 3.986004418e14) ∧
    (calculate_sso_orbit_parameters altitude inc).orbits_per_day *
        ssoOrbitalPeriodSeconds altitude = 86400 ∧
    (calculate_sso_orbit_parameters altitude inc).longitude_separation_degrees *
        (calculate_sso_orbit_parameters altitude inc).orbits_per_day = 360 := by
  have hT : 0 < ssoOrbitalPeriodSeconds altitude := by
    unfold ssoOrbitalPeriodSeconds EARTH_RADIUS
    have harg : (0 : ℝ) < (6371000 + altitude) ^ 3 / 3.986004418e14 := by positivity
    have hs := Real.sqrt_pos.mpr harg
    positivity
  have h1 : (calculate_sso_orbit_parameters altitude inc).orbital_period_minutes
      = ssoOrbitalPeriodSeconds altitude / 60 := rfl
  have horb : (calculate_sso_orbit_parameters altitude inc).orbits_per_day
      = 24 * 60 * 60 / ssoOrbitalPeriodSeconds altitude := rfl
  have hsep : (calculate_sso_orbit_parameters altitude inc).longitude_separation_degrees
      = 360 / (calculate_sso_orbit_parameters altitude inc).orbits_per_day := rfl
  have hod : 0 < (calculate_sso_orbit_parameters altitude inc).orbits_per_day := by
    rw [horb]
    positivity
  refine ⟨?_, ?_, ?_⟩
  · rw [h1, div_mul_cancel₀ _ (by norm_num : (60 : ℝ) ≠ 0)]
    rfl
  · rw [horb, div_mul_cancel₀ _ (ne_of_gt hT)]
    norm_num
  · rw [hsep, div_mul_cancel₀ _ (ne_of_gt hod)]

/-- C5 witness: instantiation at the 700 km Sentinel-2 altitude,
98 degree inclination. -/
theorem sso_orbit_parameters_spec_witness :
    (0 : ℝ) < 700000 ∧
      (calculate_sso_orbit_parameters 700000 98).orbits_per_day *
        ssoOrbitalPeriodSeconds 700000 = 86400 :=
  ⟨by norm_num, (sso_orbit_parameters_spec 700000 98 (by norm_num)).2.1⟩

/-- C7: the hybrid acquisition volume equals the stated closed form (ocean share
compressed at twice the low-resolution ratio), and it is antitone in each
compression ratio over the positive ratios the function accepts. -/
theorem hybrid_acquisition_spec
    (hi lo u o oc chr clr chr' clr' dl : ℝ)
    (h1 : 0 ≤ hi) (h2 : 0 ≤ lo) (h3 : 0 ≤ u) (h4 : 0 ≤ o) (h5 : 0 ≤ oc)
    (h6 : 0 ≤ dl) (h7 : 0 < chr) (h8 : 0 < clr) (h9 : chr ≤ chr') (h10 : clr ≤ clr') :
    simulate_hybrid_acquisition_with_terrain_and_daylight hi lo u o oc chr clr dl
        = (hi * (u / 100) / chr + lo * (o / 100) / clr
            + lo * (oc / 100) / (2 * clr)) * dl ∧
    simulate_hybrid_acquisition_with_terrain_and_daylight hi lo u o oc chr' clr dl
        ≤ simulate_hybrid_acquisition_with_terrain_and_daylight hi lo u o oc chr clr dl ∧
    simulate_hybrid_acquisition_with_terrain_and_daylight hi lo u o oc chr clr' dl
        ≤ simulate_hybrid_acquisition_with_terrain_and_daylight hi lo u o oc chr clr dl := by
  have hval : ∀ a b : ℝ,
      simulate_hybrid_acquisition_with_terrain_and_daylight hi lo u o oc a b dl
        = (hi * (u / 100) / a + lo * (o / 100) / b + lo * (oc / 100) / (b * 2)) * dl :=
    fun _ _ => rfl
  refine ⟨by rw [hval]; ring, ?_, ?_⟩
  · rw [hval, hval]
    apply mul_le_mul_of_nonneg_right _ h6
    have hub : hi * (u / 100) / chr' ≤ hi * (u / 100) / chr :=
      div_le_div_of_nonneg_left (by positivity) h7 h9
    linarith
  · rw [hval, hval]
    apply mul_le_mul_of_nonneg_right _ h6
    have hlb : lo * (o / 100) / clr' ≤ lo * (o / 100) / clr :=
      div_le_div_of_nonneg_left (by positivity) h8 h10
    have hob : lo * (oc / 100) / (clr' * 2) ≤ lo * (oc / 100) / (clr * 2) :=
      div_le_div_of_nonneg_left (by positivity) (by linarith) (by linarith)
    linarith

/-- C7 witness: instantiation at the balanced scenario shares with ratios 2 and 4
increased to 3 and 5. -/
theorem hybrid_acquisition_spec_witness :
    (0 : ℝ) < 2 ∧
      simulate_hybrid_acquisition_with_terrain_and_daylight 1 1 10 30 60 2 4 0.5
        = (1 * ((10 : ℝ) / 100) / 2 + 1 * ((30 : ℝ) / 100) / 4
            + 1 * ((60 : ℝ) / 100) / (2 * 4)) * 0.5 :=
  ⟨by norm_num,
    (hybrid_acquisition_spec 1 1 10 30 60 2 4 3 5 0.5 (by norm_num) (by norm_num)
      (by norm_num) (by norm_num) (by norm_num) (by norm_num) (by norm_num)
      (by norm_num) (by norm_num) (by norm_num)).1⟩

/-- C1 counterexample: with a 1000 km x 1000 km swath and zero overlap,
`calculate_number_of_images` returns 613 while `num_strips_equator` times the
images per strip `EARTH_CIRCUMFERENCE / effective_height` exceeds 1600, a gap
of roughly 1000 images that no ceiling rounding (each worth less than one
factor unit) can account for. -/
theorem image_count_strip_total_counterexample :
    (calculate_number_of_images 1 1000000 1000000 0 : ℝ) + 900
      < numStripsEquator 1000000 0 *
        (EARTH_CIRCUMFERENCE / effectiveHeight 1000000 0) := by
  have hpl : (3.141592 : ℝ) < π := Real.pi_gt_d6
  have hpu : π < 3.141593 := Real.pi_lt_d6
  have hargw : EARTH_CIRCUMFERENCE / effectiveWidth 1000000 0 = 12.742 * π := by
    unfold EARTH_CIRCUMFERENCE effectiveWidth EARTH_RADIUS
    norm_num
    ring
  have hargh : EARTH_CIRCUMFERENCE / effectiveHeight 1000000 0 = 12.742 * π := by
    unfold EARTH_CIRCUMFERENCE effectiveHeight EARTH_RADIUS
    norm_num
    ring
  have hx : numImagesReal 1000000 1000000 0 = 194.8302768 * π := by
    unfold numImagesReal effectiveArea effectiveWidth effectiveHeight
      EARTH_SURFACE_AREA EARTH_RADIUS
    norm_num
    ring
  have hL : (calculate_number_of_images 1 1000000 1000000 0 : ℝ)
      < 194.8302768 * π + 1 := by
    have := Int.ceil_lt_add_one (numImagesReal 1000000 1000000 0)
    calc (calculate_number_of_images 1 1000000 1000000 0 : ℝ)
        = (⌈numImagesReal 1000000 1000000 0⌉ : ℝ) := rfl
      _ < numImagesReal 1000000 1000000 0 + 1 := this
      _ = 194.8302768 * π + 1 := by rw [hx]
  have hs : 12.742 * π ≤ numStripsEquator 1000000 0 := by
    calc 12.742 * π = EARTH_CIRCUMFERENCE / effectiveWidth 1000000 0 := hargw.symm
      _ ≤ (⌈EARTH_CIRCUMFERENCE / effectiveWidth 1000000 0⌉ : ℝ) := Int.le_ceil _
      _ = numStripsEquator 1000000 0 := rfl
  have h40 : (40 : ℝ) < 12.742 * π := by nlinarith
  have hRHS : (1600 : ℝ) < numStripsEquator 1000000 0 *
      (EARTH_CIRCUMFERENCE / effectiveHeight 1000000 0) := by
    rw [hargh]
    calc (1600 : ℝ) = 40 * 40 := by norm_num
      _ < (12.742 * π) * (12.742 * π) := by nlinarith
      _ ≤ numStripsEquator 1000000 0 * (12.742 * π) :=
        mul_le_mul_of_nonneg_right hs (by positivity)
  linarith

/-- C1 amended: the two functions are mutually consistent only up to the
constant factor `pi / 1.2`: before any rounding, the image count
`num_images = (EARTH_SURFACE_AREA / effective_area) * 1.2` satisfies
`num_images * pi = 1.2 * (strips * images_per_strip)` where
`strips = EARTH_CIRCUMFERENCE / effective_width` and
`images_per_strip = EARTH_CIRCUMFERENCE / effective_height`; the rounded
counts therefore differ by roughly the factor `pi / 1.2` (about 2.62), not
merely by ceiling roundings. -/
theorem image_count_strip_total_amended (sw sh op : ℝ)
    (hsw : 0 < sw) (hsh : 0 < sh) (hop0 : 0 ≤ op) (hop1 : op < 100) :
    numImagesReal sw sh op * π
      = 1.2 * ((EARTH_CIRCUMFERENCE / effectiveWidth sw op) *
          (EARTH_CIRCUMFERENCE / effectiveHeight sh op)) := by
  have hf : (0 : ℝ) < 1 - op / 100 := by linarith
  have hw : effectiveWidth sw op ≠ 0 := by
    unfold effectiveWidth
    positivity
  have hh : effectiveHeight sh op ≠ 0 := by
    unfold effectiveHeight
    positivity
  unfold numImagesReal effectiveArea EARTH_SURFACE_AREA EARTH_CIRCUMFERENCE
  field_simp
  ring

/-- C1 amended witness: instantiation at unit swath and zero overlap. -/
theorem image_count_strip_total_amended_witness :
    (0 : ℝ) < 1 ∧
      numImagesReal 1 1 0 * π
        = 1.2 * ((EARTH_CIRCUMFERENCE / effectiveWidth 1 0) *
            (EARTH_CIRCUMFERENCE / effectiveHeight 1 0)) :=
  ⟨by norm_num,
    image_count_strip_total_amended 1 1 0 (by norm_num) (by norm_num)
      (by norm_num) (by norm_num)⟩

/-- C10 counterexample: the stated precondition (`0 <= overlap_percent < 100`,
`altitude > 0`, positive swath) holds at `altitude = 1`, `overlap_percent = 0`,
yet with `orbital_period_minutes = 0` — an argument the stated precondition
does not constrain — the divisor `ground_velocity` of
`calculate_imaging_intervals` is 0, not strictly positive. -/
theorem division_safety_counterexample :
    ((0 : ℝ) ≤ 0 ∧ (0 : ℝ) < 100 ∧ (0 : ℝ) < 1) ∧ groundVelocity 1 0 = 0 := by
  refine ⟨⟨le_refl 0, by norm_num, by norm_num⟩, ?_⟩
  unfold groundVelocity satelliteVelocity
  simp

/-- C10 amended: with `0 < orbital_period_minutes` added to the precondition,
every non-constant divisor in `calculate_number_of_images` and
`calculate_imaging_intervals` is strictly positive (`effective_area`,
`orbital_period_seconds`, `ground_velocity`, `effective_width`,
`num_strips_equator`), so no division by zero occurs; and at
`overlap_percent = 100` the precondition is necessary because
`effective_area` and `effective_width` are zero. -/
theorem division_safety_amended (altitude sw sh op period : ℝ)
    (ha : 0 < altitude) (hsw : 0 < sw) (hsh : 0 < sh)
    (hop0 : 0 ≤ op) (hop1 : op < 100) (hp : 0 < period) :
    0 < effectiveArea sw sh op ∧
    0 < period * 60 ∧
    0 < groundVelocity altitude period ∧
    0 < effectiveWidth sw op ∧
    1 ≤ numStripsEquator sw op ∧
    effectiveArea sw sh 100 = 0 ∧ effectiveWidth sw 100 = 0 := by
  have hf : (0 : ℝ) < 1 - op / 100 := by linarith
  have hEW : 0 < effectiveWidth sw op := by
    unfold effectiveWidth
    positivity
  have hEH : 0 < effectiveHeight sh op := by
    unfold effectiveHeight
    positivity
  refine ⟨?_, by positivity, ?_, hEW, ?_, ?_, ?_⟩
  · unfold effectiveArea
    positivity
  · unfold groundVelocity satelliteVelocity EARTH_RADIUS
    positivity
  · have hpos : 0 < EARTH_CIRCUMFERENCE / effectiveWidth sw op := by
      have hC : 0 < EARTH_CIRCUMFERENCE := by
        unfold EARTH_CIRCUMFERENCE EARTH_RADIUS
        positivity
      positivity
    have hone : (1 : ℤ) ≤ ⌈EARTH_CIRCUMFERENCE / effectiveWidth sw op⌉ :=
      Int.ceil_pos.mpr hpos
    show (1 : ℝ) ≤ (⌈EARTH_CIRCUMFERENCE / effectiveWidth sw op⌉ : ℝ)
    exact_mod_cast hone
  · unfold effectiveArea effectiveWidth effectiveHeight
    norm_num
  · unfold effectiveWidth
    norm_num

/-- C10 amended witness: instantiation at altitude 1 m, unit swath, zero
overlap, the 90 minute default period. -/
theorem division_safety_amended_witness :
    (0 : ℝ) < 90 ∧ 0 < effectiveArea 1 1 0 :=
  ⟨by norm_num,
    (division_safety_amended 1 1 1 0 90 (by norm_num) (by norm_num) (by norm_num)
      (by norm_num) (by norm_num) (by norm_num)).1⟩

end ProjGrupowyWizja
